import Mathlib

/-!
Verification development for the rpmci repository.

The definitions below are shallow embeddings of the Python sources:

* `cli.py` (`CliRun.run`, `Conf._load_virtualization`) — the test-run
  orchestrator and the configuration loader;
* `virt_ec2.py` (`VirtEC2.__exit__`, `VirtEC2._delete_ec2_instance`,
  the boot-probe loop of `VirtEC2._create_ec2_instance`, `VirtEC2.run`);
* `virt_docker.py` (`VirtDocker._container_stop`, `VirtDocker.run`);
* `ssh.py` (`SshKeys.__del__`, `SshCommand`).

Side effects are modelled as explicit event traces; Python exceptions as
`Except` errors; remote command execution as an environment function from
the issued command line to its exit status.
-/

/-! ## Orchestrator model (`cli.py`, `CliRun.run`) -/

/-- Observable side effects of one orchestrator run: the remote commands
issued for each phase and the release (`__exit__`) of each scoped resource. -/
inductive Event where
  | installTarget
  | installSteering
  | invokeSteering
  | invokeTarget
  | testInvokeSteering
  | releaseSteering
  | releaseTarget
  | releaseRepo
deriving DecidableEq, Repr

/-- Python exceptions that can escape the phase block of `CliRun.run`.
`keyError k` models a `KeyError` raised by `conf.options[k]` /
`...["machine"]` on a missing key. -/
inductive RunErr where
  | targetInstallFailed (code : Int)
  | steeringInstallFailed (code : Int)
  | steeringInvokeFailed (code : Int)
  | targetInvokeFailed (code : Int)
  | testInvocationFailed (code : Int)
  | keyError (key : String)
deriving DecidableEq, Repr

/-- The validated `target` section: optional `rpm` and `invoke` keys. -/
structure TargetConf where
  rpm : Option String
  invoke : Option (List String)
deriving DecidableEq, Repr

/-- The validated `steering` section: optional `rpm` and `invoke` keys. -/
structure SteeringConf where
  rpm : Option String
  invoke : Option (List String)
deriving DecidableEq, Repr

/-- The validated `test_invocation` section: mandatory `invoke`, optional
`machine`. -/
structure TestInvocationConf where
  machine : Option String
  invoke : List String
deriving DecidableEq, Repr

/-- The parts of the loaded configuration that `CliRun.run` consults in its
phase block: the `target` section, the optional `steering` and
`test_invocation` sections, and whether an `rpm_repo` section is present. -/
structure RunConf where
  target : TargetConf
  steering : Option SteeringConf
  testInvocation : Option TestInvocationConf
  rpmRepo : Bool
deriving DecidableEq, Repr

/-- Exit codes returned by `backend.run(...)` for each possible phase
command of the run. -/
structure PhaseExec where
  installTarget : Int
  installSteering : Int
  invokeSteering : Int
  invokeTarget : Int
  testInvoke : Int
deriving DecidableEq, Repr

deriving instance DecidableEq for Except

/-- Sequencing of two phase steps: the second runs only when the first did
not raise; traces accumulate in order. -/
def andThenE (a b : List Event × Except RunErr Unit) :
    List Event × Except RunErr Unit :=
  match a with
  | (es, Except.ok _) => (es ++ b.1, b.2)
  | (es, Except.error e) => (es, Except.error e)

/-- `cli.py:373-376`: if `"rpm" in conf.options["target"]`, run the dnf
install on the target and raise `RuntimeError` on a non-zero exit code. -/
def stepTargetInstall (conf : RunConf) (exec : PhaseExec) :
    List Event × Except RunErr Unit :=
  match conf.target.rpm with
  | none => ([], Except.ok ())
  | some _ =>
      if exec.installTarget = 0 then ([Event.installTarget], Except.ok ())
      else ([Event.installTarget],
            Except.error (RunErr.targetInstallFailed exec.installTarget))

/-- `cli.py:378-381`: `if "rpm" in conf.options["steering"]` — the lookup
`conf.options["steering"]` is unconditional, so a configuration without a
steering section raises `KeyError` here. -/
def stepSteeringInstall (conf : RunConf) (exec : PhaseExec) :
    List Event × Except RunErr Unit :=
  match conf.steering with
  | none => ([], Except.error (RunErr.keyError "steering"))
  | some s =>
      match s.rpm with
      | none => ([], Except.ok ())
      | some _ =>
          if exec.installSteering = 0 then
            ([Event.installSteering], Except.ok ())
          else
            ([Event.installSteering],
             Except.error (RunErr.steeringInstallFailed exec.installSteering))

/-- `cli.py:383-386`: `if "invoke" in conf.options["steering"]` — again an
unconditional lookup of the steering section. -/
def stepSteeringInvoke (conf : RunConf) (exec : PhaseExec) :
    List Event × Except RunErr Unit :=
  match conf.steering with
  | none => ([], Except.error (RunErr.keyError "steering"))
  | some s =>
      match s.invoke with
      | none => ([], Except.ok ())
      | some _ =>
          if exec.invokeSteering = 0 then
            ([Event.invokeSteering], Except.ok ())
          else
            ([Event.invokeSteering],
             Except.error (RunErr.steeringInvokeFailed exec.invokeSteering))

/-- `cli.py:388-391`: if `"invoke" in conf.options["target"]`, run it on the
target and raise on a non-zero exit code. -/
def stepTargetInvoke (conf : RunConf) (exec : PhaseExec) :
    List Event × Except RunErr Unit :=
  match conf.target.invoke with
  | none => ([], Except.ok ())
  | some _ =>
      if exec.invokeTarget = 0 then ([Event.invokeTarget], Except.ok ())
      else ([Event.invokeTarget],
            Except.error (RunErr.targetInvokeFailed exec.invokeTarget))

/-- `cli.py:393-397`: if a `test_invocation` section is present, read its
`machine` key (a `KeyError` when absent) and, when it equals `steering`,
run the test invoke on the steering machine, raising on non-zero. -/
def stepTestInvocation (conf : RunConf) (exec : PhaseExec) :
    List Event × Except RunErr Unit :=
  match conf.testInvocation with
  | none => ([], Except.ok ())
  | some ti =>
      match ti.machine with
      | none => ([], Except.error (RunErr.keyError "machine"))
      | some m =>
          if m = "steering" then
            if exec.testInvoke = 0 then
              ([Event.testInvokeSteering], Except.ok ())
            else
              ([Event.testInvokeSteering],
               Except.error (RunErr.testInvocationFailed exec.testInvoke))
          else ([], Except.ok ())

/-- The phase block of `CliRun.run` (`cli.py:373-400`), in source order. -/
def runPhases (conf : RunConf) (exec : PhaseExec) :
    List Event × Except RunErr Unit :=
  andThenE (stepTargetInstall conf exec)
    (andThenE (stepSteeringInstall conf exec)
      (andThenE (stepSteeringInvoke conf exec)
        (andThenE (stepTargetInvoke conf exec)
          (stepTestInvocation conf exec))))

/-- The releases performed by the three nested `with` statements of
`cli.py:370-372` when the phase block exits, normally or by exception:
innermost first — steering (a `nullcontext` when absent), then the target,
then the rpm repository (a `nullcontext` when absent). -/
def releaseEvents (conf : RunConf) : List Event :=
  (if conf.steering.isSome then [Event.releaseSteering] else [])
    ++ [Event.releaseTarget]
    ++ (if conf.rpmRepo then [Event.releaseRepo] else [])

/-- `CliRun.run` from the `with` nesting on (`cli.py:370-402`): execute the
phases, then unwind every scope; a phase exception propagates past the
unwinding (`__exit__` returns `None`), otherwise the method returns `0`. -/
def cliRun (conf : RunConf) (exec : PhaseExec) :
    List Event × Except RunErr Int :=
  match runPhases conf exec with
  | (es, Except.ok _) => (es ++ releaseEvents conf, Except.ok 0)
  | (es, Except.error e) => (es ++ releaseEvents conf, Except.error e)



/-! ## Cloud-VM teardown (`virt_ec2.py`, `VirtEC2.__exit__`) -/

/-- The provider calls issued by `VirtEC2.__exit__` and its helpers:
`instance.terminate()`, `instance.wait_until_terminated()`,
`security_group.delete()`, `KeyPair(...).delete()`. -/
inductive Ec2TeardownEvent where
  | terminateInstance
  | waitUntilTerminated
  | deleteSecurityGroup
  | deleteKeypair
deriving DecidableEq, Repr

/-- A fault model for the teardown: which provider calls raise. -/
structure Ec2TeardownFaults where
  terminateFails : Bool
  waitFails : Bool
  sgDeleteFails : Bool
  keypairDeleteFails : Bool
deriving DecidableEq, Repr

/-- One sequential provider call: it is issued (appears in the trace); if it
raises, nothing after it runs and the exception propagates. -/
def ec2Step (ev : Ec2TeardownEvent) (fails : Bool)
    (rest : List Ec2TeardownEvent × Bool) : List Ec2TeardownEvent × Bool :=
  if fails then ([ev], true) else (ev :: rest.1, rest.2)

/-- `VirtEC2.__exit__` (`virt_ec2.py:43-46`): `_delete_ec2_instance`
(terminate, then block in `wait_until_terminated`), then
`_delete_ec2_security_group`, then `_delete_ec2_keypair` — straight-line
code with no exception handling. The boolean result is whether the body
raised. -/
def virtEC2_exit (f : Ec2TeardownFaults) : List Ec2TeardownEvent × Bool :=
  ec2Step Ec2TeardownEvent.terminateInstance f.terminateFails
    (ec2Step Ec2TeardownEvent.waitUntilTerminated f.waitFails
      (ec2Step Ec2TeardownEvent.deleteSecurityGroup f.sgDeleteFails
        (ec2Step Ec2TeardownEvent.deleteKeypair f.keypairDeleteFails
          ([], false))))

/-- The complete teardown order of `VirtEC2.__exit__` when nothing raises. -/
def ec2TeardownOrder : List Ec2TeardownEvent :=
  [Ec2TeardownEvent.terminateInstance, Ec2TeardownEvent.waitUntilTerminated,
   Ec2TeardownEvent.deleteSecurityGroup, Ec2TeardownEvent.deleteKeypair]

/-! ## Boot readiness probe (`virt_ec2.py`, `VirtEC2._create_ec2_instance`) -/

/-- Actions of the boot-wait loop: one ssh probe invocation, or one
`time.sleep` of the given number of seconds. -/
inductive BootAction where
  | probe
  | sleepSec (n : Nat)
deriving DecidableEq, Repr

/-- `virt_ec2.py:103`: the fixed `time.sleep(20)` between failed probes. -/
def ec2BootIntervalSeconds : Nat := 20

/-- `virt_ec2.py:89`: the attempt budget `range(20)` of the boot loop. -/
def ec2MaxBootAttempts : Nat := 20

/-- The `for _ in range(n): ... else: raise` loop of
`VirtEC2._create_ec2_instance` (`virt_ec2.py:89-105`), parametrised by the
attempt budget. `probe i` is the exit code of the `i`-th ssh invocation of
`systemctl is-system-running`. Each iteration issues one probe; exit code 0
breaks out with success; otherwise the loop sleeps 20 seconds and retries;
an exhausted budget means the `RuntimeError` is raised (`false`). -/
def bootProbeLoop (probe : Nat -> Int) : Nat -> List BootAction × Bool
  | 0 => ([], false)
  | Nat.succ n =>
      if probe 0 = 0 then ([BootAction.probe], true)
      else
        let r := bootProbeLoop (fun i => probe (i + 1)) n
        (BootAction.probe :: BootAction.sleepSec ec2BootIntervalSeconds :: r.1,
         r.2)

/-- The boot wait as instantiated in the source, with its hard-coded budget
of 20 attempts. -/
def ec2WaitReady (probe : Nat -> Int) : List BootAction × Bool :=
  bootProbeLoop probe ec2MaxBootAttempts

/-- Number of probe invocations in a boot-loop trace. -/
def probeCount (tr : List BootAction) : Nat :=
  tr.countP (fun a => match a with
    | BootAction.probe => true
    | BootAction.sleepSec _ => false)


/-! ## Remote command execution (`ssh.py`, `virt_docker.py`, `virt_ec2.py`,
`virt_qemu.py`) -/

/-- `SshCommand.__init__` (`ssh.py:28-37`): the assembled command line —
`ssh user@host`, the flattened `-o key=value` options, then
`-p port -i privkey command`. -/
def sshCommand_cmd (user host : String) (port : Nat) (privkeyFile : String)
    (command : String) (options : List (String × String)) : List String :=
  ["ssh", user ++ "@" ++ host]
    ++ options.flatMap (fun kv => ["-o", kv.1 ++ "=" ++ kv.2])
    ++ ["-p", toString port, "-i", privkeyFile, command]

/-- `SshCommand.run` (`ssh.py:39-43`): `subprocess.run` without `check`,
returning `res.returncode` whatever it is. `env` maps an issued command
line to its exit status; the `Except` layer carries a Python exception,
which this method never produces. -/
def sshCommand_run (env : List String -> Int) (user host : String)
    (port : Nat) (privkeyFile command : String)
    (options : List (String × String)) : Except String Int :=
  Except.ok (env (sshCommand_cmd user host port privkeyFile command options))

/-- `VirtDocker.run` (`virt_docker.py:129-148`): the assembled
`docker container exec` command line. -/
def virtDocker_runCmd (privileged : Bool) (execRef : String)
    (args : List String) : List String :=
  ["docker", "container", "exec"]
    ++ (if privileged then ["--privileged"] else [])
    ++ [execRef] ++ args

/-- `VirtDocker.run` (`virt_docker.py:129-148`): spawns the exec command and
returns `proc.wait()` — the exit status, with no check on its value. -/
def virtDocker_run (env : List String -> Int) (privileged : Bool)
    (execRef : String) (args : List String) : Except String Int :=
  Except.ok (env (virtDocker_runCmd privileged execRef args))

/-- `VirtEC2.run` (`virt_ec2.py:48-50`): delegates to `SshCommand.run` with
user `admin`, the instance public address, port 22, the run keypair, the
space-joined arguments, and the two fixed ssh options. -/
def virtEC2_run (env : List String -> Int) (publicIp privkeyFile : String)
    (args : List String) : Except String Int :=
  sshCommand_run env "admin" publicIp 22 privkeyFile
    (String.intercalate " " args)
    [("StrictHostKeyChecking", "no"), ("UserKnownHostsFile", "/dev/null")]

/-- `VirtQemu.run` (`virt_qemu.py:36-38`): delegates to `SshCommand.run`
against `127.0.0.1` on the forwarded ssh port. -/
def virtQemu_run (env : List String -> Int) (sshPort : Nat)
    (privkeyFile : String) (args : List String) : Except String Int :=
  sshCommand_run env "admin" "127.0.0.1" sshPort privkeyFile
    (String.intercalate " " args)
    [("StrictHostKeyChecking", "no"), ("UserKnownHostsFile", "/dev/null")]

/-! ## Container stop (`virt_docker.py`, `VirtDocker._container_stop`) -/

/-- `VirtDocker._container_stop` (`virt_docker.py:93-113`): on a `None`
container reference it returns immediately; otherwise it issues one
`docker container stop` (ignoring its exit status) and clears the
reference. The result is the new `_exec_ref` field paired with the list of
docker command lines issued. -/
def container_stop (execRef : Option String) :
    Option String × List (List String) :=
  match execRef with
  | none => (none, [])
  | some ref => (none, [["docker", "container", "stop", ref]])

/-! ## Keypair lifetime (`ssh.py`, `SshKeys`) -/

/-- The two key files `SshKeys.__init__` creates in the cache directory
(`ssh.py:14-15`). -/
def sshKeys_files (cacheDir : String) : List String :=
  [cacheDir ++ "/id_rsa", cacheDir ++ "/id_rsa.pub"]

/-- `SshKeys.__del__` (`ssh.py:21-24`): the body is `pass` — both
`os.unlink` calls are commented out — so the set of files on disk is left
unchanged. -/
def sshKeys_del (files : List String) : List String :=
  files

/-! ## Configuration loader (`cli.py`, `Conf._load_virtualization`) -/

/-- JSON values, as produced by `json.load`. -/
inductive JValue where
  | str (s : String)
  | bool (b : Bool)
  | num (n : Int)
  | arr (xs : List JValue)
  | obj (fields : List (String × JValue))

/-- Errors raised by the configuration loader: `Conf._invalid_key`,
`Conf._invalid_value`, `Conf._missing_key` (`cli.py:27-37`), plus the
`TypeError` CPython would raise when a section value is not an object (a
path no claim exercises). -/
inductive ConfErr where
  | invalidKey (path key : String)
  | invalidValue (path key : String) (value : JValue)
  | missingKey (path key : String)
  | pythonTypeError (path : String)

/-- `cli.py:49`: membership of the `type` value in
`["docker", "qemu", "ec2"]` — anything that is not one of these three
strings fails the test. -/
def isValidVirtType (v : JValue) : Bool :=
  match v with
  | JValue.str s => s = "docker" || s = "qemu" || s = "ec2"
  | _ => false

/-- The `docker` sub-object loop (`cli.py:53-69`): `arguments` and `image`
are copied, `privileged` must be a bool, any other sub-key is rejected. -/
def loadDockerFields (path : String) :
    List (String × JValue) -> Except ConfErr (List (String × JValue))
  | [] => Except.ok []
  | (sk, sv) :: rest =>
      if sk = "arguments" then do
        let r <- loadDockerFields path rest
        Except.ok ((sk, sv) :: r)
      else if sk = "image" then do
        let r <- loadDockerFields path rest
        Except.ok ((sk, sv) :: r)
      else if sk = "privileged" then
        match sv with
        | JValue.bool b => do
            let r <- loadDockerFields path rest
            Except.ok ((sk, JValue.bool b) :: r)
        | _ => Except.error (ConfErr.invalidValue path sk sv)
      else Except.error (ConfErr.invalidKey path sk)

/-- The `qemu` sub-object loop (`cli.py:76-82`): `image` and `ssh_port` are
copied, any other sub-key is rejected. -/
def loadQemuFields (path : String) :
    List (String × JValue) -> Except ConfErr (List (String × JValue))
  | [] => Except.ok []
  | (sk, sv) :: rest =>
      if sk = "image" then do
        let r <- loadQemuFields path rest
        Except.ok ((sk, sv) :: r)
      else if sk = "ssh_port" then do
        let r <- loadQemuFields path rest
        Except.ok ((sk, sv) :: r)
      else Except.error (ConfErr.invalidKey path sk)

/-- One iteration of the key loop of `Conf._load_virtualization`
(`cli.py:46-90`), threading the `conf` dictionary built so far. Note the
`ec2` branch (`cli.py:87-88`): the source is `pass`, so nothing is stored
in `conf` for it. -/
def loadVirtField (path : String) (conf : List (String × JValue))
    (kv : String × JValue) : Except ConfErr (List (String × JValue)) :=
  if kv.1 = "type" then
    if isValidVirtType kv.2 then Except.ok (conf ++ [("type", kv.2)])
    else Except.error (ConfErr.invalidValue path kv.1 kv.2)
  else if kv.1 = "docker" then
    match kv.2 with
    | JValue.obj fields => do
        let sub <- loadDockerFields (path ++ "/docker") fields
        if (List.lookup "image" sub).isSome then
          Except.ok (conf ++ [("docker", JValue.obj sub)])
        else Except.error (ConfErr.missingKey (path ++ "/docker") "image")
    | _ => Except.error (ConfErr.pythonTypeError (path ++ "/docker"))
  else if kv.1 = "qemu" then
    match kv.2 with
    | JValue.obj fields => do
        let sub <- loadQemuFields (path ++ "/qemu") fields
        if (List.lookup "image" sub).isSome then
          if (List.lookup "ssh_port" sub).isSome then
            Except.ok (conf ++ [("qemu", JValue.obj sub)])
          else Except.error (ConfErr.missingKey (path ++ "/qemu") "ssh_port")
        else Except.error (ConfErr.missingKey (path ++ "/qemu") "image")
    | _ => Except.error (ConfErr.pythonTypeError (path ++ "/qemu"))
  else if kv.1 = "ec2" then
    Except.ok conf
  else Except.error (ConfErr.invalidKey path kv.1)

/-- `Conf._load_virtualization` (`cli.py:40-97`): run the key loop over the
object fields in order, then require a `type` key, then require that
`conf[conf["type"]]` exists — i.e. that the loop stored a sub-object under
the name of the selected type. -/
def load_virtualization (path : String) (data : List (String × JValue)) :
    Except ConfErr (List (String × JValue)) := do
  let conf <- data.foldlM (loadVirtField path) []
  match List.lookup "type" conf with
  | none => Except.error (ConfErr.missingKey path "type")
  | some (JValue.str t) =>
      if (List.lookup t conf).isSome then Except.ok conf
      else Except.error (ConfErr.missingKey path t)
  | some _ =>
      -- unreachable: the loop only stores a validated string under `type`
      Except.error (ConfErr.missingKey path "type")



/-! ## Concrete run configurations used in the claim instances -/

/-- Classification of orchestrator events into phase commands and releases. -/
def Event.isRelease : Event -> Bool
  | Event.releaseSteering => true
  | Event.releaseTarget => true
  | Event.releaseRepo => true
  | _ => false

/-- A run with a steering machine and a `test_invocation` phase on it. -/
def c1Conf : RunConf :=
  { target := { rpm := none, invoke := none },
    steering := some { rpm := none, invoke := none },
    testInvocation := some { machine := some "steering",
                             invoke := ["run-tests"] },
    rpmRepo := false }

/-- Exit codes for `c1Conf`: the test invocation returns 2, all else 0. -/
def c1Exec : PhaseExec :=
  { installTarget := 0, installSteering := 0, invokeSteering := 0,
    invokeTarget := 0, testInvoke := 2 }

/-- A run with both `target.rpm` and `target.invoke` set, plus a steering
machine. -/
def c4Conf : RunConf :=
  { target := { rpm := some "pkg-a", invoke := some ["echo", "hi"] },
    steering := some { rpm := none, invoke := none },
    testInvocation := none,
    rpmRepo := true }

/-- Exit codes for `c4Conf`: the target install returns 1, all else 0. -/
def c4Exec : PhaseExec :=
  { installTarget := 1, installSteering := 0, invokeSteering := 0,
    invokeTarget := 0, testInvoke := 0 }

/-- A fault assignment for the EC2 teardown where only the security-group
delete raises. -/
def c5Faults : Ec2TeardownFaults :=
  { terminateFails := false, waitFails := false,
    sgDeleteFails := true, keypairDeleteFails := false }

/-- A run configured with a target section but no steering section. -/
def c6Conf : RunConf :=
  { target := { rpm := some "pkg-a", invoke := some ["echo", "hi"] },
    steering := none,
    testInvocation := none,
    rpmRepo := false }

/-- Exit codes for `c6Conf`: every phase command succeeds. -/
def c6Exec : PhaseExec :=
  { installTarget := 0, installSteering := 0, invokeSteering := 0,
    invokeTarget := 0, testInvoke := 0 }

/-! ## Helper lemmas -/

theorem andThenE_fst (a b : List Event × Except RunErr Unit) :
    (andThenE a b).1 = a.1 ++ b.1 ∨ (andThenE a b).1 = a.1 := by
  rcases a with ⟨es, r⟩
  cases r with
  | ok u => exact Or.inl rfl
  | error e => exact Or.inr rfl

theorem andThenE_mem (a b : List Event × Except RunErr Unit) (e : Event)
    (h : e ∈ (andThenE a b).1) : e ∈ a.1 ∨ e ∈ b.1 := by
  rcases andThenE_fst a b with hf | hf <;> rw [hf] at h
  · exact (List.mem_append.mp h)
  · exact Or.inl h

theorem stepTargetInstall_fst (conf : RunConf) (exec : PhaseExec) :
    (stepTargetInstall conf exec).1 = []
    ∨ (stepTargetInstall conf exec).1 = [Event.installTarget] := by
  rcases hr : conf.target.rpm with _ | r <;>
    simp only [stepTargetInstall, hr]
  · exact Or.inl trivial
  · by_cases hc : exec.installTarget = 0 <;> simp [hc]

theorem stepSteeringInstall_fst (conf : RunConf) (exec : PhaseExec) :
    (stepSteeringInstall conf exec).1 = []
    ∨ (stepSteeringInstall conf exec).1 = [Event.installSteering] := by
  rcases hs : conf.steering with _ | s <;>
    simp only [stepSteeringInstall, hs]
  · exact Or.inl trivial
  · rcases hr : s.rpm with _ | r <;> simp only [hr]
    · exact Or.inl trivial
    · by_cases hc : exec.installSteering = 0 <;> simp [hc]

theorem stepSteeringInvoke_fst (conf : RunConf) (exec : PhaseExec) :
    (stepSteeringInvoke conf exec).1 = []
    ∨ (stepSteeringInvoke conf exec).1 = [Event.invokeSteering] := by
  rcases hs : conf.steering with _ | s <;>
    simp only [stepSteeringInvoke, hs]
  · exact Or.inl trivial
  · rcases hr : s.invoke with _ | r <;> simp only [hr]
    · exact Or.inl trivial
    · by_cases hc : exec.invokeSteering = 0 <;> simp [hc]

theorem stepTargetInvoke_fst (conf : RunConf) (exec : PhaseExec) :
    (stepTargetInvoke conf exec).1 = []
    ∨ (stepTargetInvoke conf exec).1 = [Event.invokeTarget] := by
  rcases hr : conf.target.invoke with _ | r <;>
    simp only [stepTargetInvoke, hr]
  · exact Or.inl trivial
  · by_cases hc : exec.invokeTarget = 0 <;> simp [hc]

theorem stepTestInvocation_fst (conf : RunConf) (exec : PhaseExec) :
    (stepTestInvocation conf exec).1 = []
    ∨ (stepTestInvocation conf exec).1 = [Event.testInvokeSteering] := by
  rcases ht : conf.testInvocation with _ | ti <;>
    simp only [stepTestInvocation, ht]
  · exact Or.inl trivial
  · rcases hm : ti.machine with _ | m <;> simp only [hm]
    · exact Or.inl trivial
    · by_cases hs : m = "steering" <;>
        by_cases hc : exec.testInvoke = 0 <;> simp [hs, hc]

theorem mem_of_fst_cases {e ev : Event} {tr : List Event}
    (hcases : tr = [] ∨ tr = [ev]) (h : e ∈ tr) : e = ev := by
  rcases hcases with hc | hc <;> rw [hc] at h
  · exact absurd h (List.not_mem_nil e)
  · simpa using h

theorem runPhases_mem (conf : RunConf) (exec : PhaseExec) (e : Event)
    (h : e ∈ (runPhases conf exec).1) : Event.isRelease e = false := by
  unfold runPhases at h
  rcases andThenE_mem _ _ _ h with h1 | h1
  · rw [mem_of_fst_cases (stepTargetInstall_fst conf exec) h1]; rfl
  rcases andThenE_mem _ _ _ h1 with h2 | h2
  · rw [mem_of_fst_cases (stepSteeringInstall_fst conf exec) h2]; rfl
  rcases andThenE_mem _ _ _ h2 with h3 | h3
  · rw [mem_of_fst_cases (stepSteeringInvoke_fst conf exec) h3]; rfl
  rcases andThenE_mem _ _ _ h3 with h4 | h4
  · rw [mem_of_fst_cases (stepTargetInvoke_fst conf exec) h4]; rfl
  · rw [mem_of_fst_cases (stepTestInvocation_fst conf exec) h4]; rfl

theorem runPhases_count_release (conf : RunConf) (exec : PhaseExec)
    (e : Event) (hrel : Event.isRelease e = true) :
    (runPhases conf exec).1.count e = 0 := by
  refine List.count_eq_zero.mpr (fun hmem => ?_)
  rw [runPhases_mem conf exec e hmem] at hrel
  exact Bool.noConfusion hrel

theorem cliRun_fst (conf : RunConf) (exec : PhaseExec) :
    (cliRun conf exec).1 = (runPhases conf exec).1 ++ releaseEvents conf := by
  unfold cliRun
  rcases hr : runPhases conf exec with ⟨es, r⟩
  cases r <;> rfl

theorem cliRun_snd_error (conf : RunConf) (exec : PhaseExec) (er : RunErr)
    (h : (runPhases conf exec).2 = Except.error er) :
    (cliRun conf exec).2 = Except.error er := by
  unfold cliRun
  rcases hr : runPhases conf exec with ⟨es, r⟩
  rw [hr] at h
  cases r with
  | ok u => exact absurd h (by simp)
  | error e => simp at h; rw [h]

theorem cliRun_snd_ok (conf : RunConf) (exec : PhaseExec)
    (h : (runPhases conf exec).2 = Except.ok ()) :
    (cliRun conf exec).2 = Except.ok 0 := by
  unfold cliRun
  rcases hr : runPhases conf exec with ⟨es, r⟩
  rw [hr] at h
  cases r with
  | ok u => rfl
  | error e => exact absurd h (by simp)

theorem releaseEvents_counts (conf : RunConf) :
    (releaseEvents conf).count Event.releaseTarget = 1
    ∧ (releaseEvents conf).count Event.releaseSteering
        = (if conf.steering.isSome then 1 else 0)
    ∧ (releaseEvents conf).count Event.releaseRepo
        = (if conf.rpmRepo then 1 else 0) := by
  rcases conf with ⟨t, st, ti, rr⟩
  rcases st with _ | s <;> cases rr <;>
    exact ⟨rfl, rfl, rfl⟩

theorem cliRun_release_counts (conf : RunConf) (exec : PhaseExec) :
    (cliRun conf exec).1.count Event.releaseTarget = 1
    ∧ (cliRun conf exec).1.count Event.releaseSteering
        = (if conf.steering.isSome then 1 else 0)
    ∧ (cliRun conf exec).1.count Event.releaseRepo
        = (if conf.rpmRepo then 1 else 0) := by
  have h1 := runPhases_count_release conf exec Event.releaseTarget rfl
  have h2 := runPhases_count_release conf exec Event.releaseSteering rfl
  have h3 := runPhases_count_release conf exec Event.releaseRepo rfl
  have hrel := releaseEvents_counts conf
  rw [cliRun_fst]
  refine ⟨?_, ?_, ?_⟩
  · rw [List.count_append, h1, Nat.zero_add]; exact hrel.1
  · rw [List.count_append, h2, Nat.zero_add]; exact hrel.2.1
  · rw [List.count_append, h3, Nat.zero_add]; exact hrel.2.2

theorem bootProbeLoop_zero (probe : Nat -> Int) :
    bootProbeLoop probe 0 = ([], false) := rfl

theorem bootProbeLoop_succ (probe : Nat -> Int) (n : Nat) :
    bootProbeLoop probe (n + 1) =
      if probe 0 = 0 then ([BootAction.probe], true)
      else (BootAction.probe :: BootAction.sleepSec ec2BootIntervalSeconds ::
              (bootProbeLoop (fun i => probe (i + 1)) n).1,
            (bootProbeLoop (fun i => probe (i + 1)) n).2) := rfl

theorem probeCount_cons_probe (tr : List BootAction) :
    probeCount (BootAction.probe :: tr) = probeCount tr + 1 := by
  simp [probeCount, List.countP_cons]

theorem probeCount_cons_sleep (k : Nat) (tr : List BootAction) :
    probeCount (BootAction.sleepSec k :: tr) = probeCount tr := by
  simp [probeCount, List.countP_cons]

theorem bootProbeLoop_count_le (n : Nat) :
    ∀ probe : Nat -> Int, probeCount (bootProbeLoop probe n).1 ≤ n := by
  induction n with
  | zero => intro probe; rw [bootProbeLoop_zero]; simp [probeCount]
  | succ m ih =>
      intro probe
      rw [bootProbeLoop_succ]
      by_cases hc : probe 0 = 0
      · rw [if_pos hc]; simp [probeCount]
      · rw [if_neg hc]
        show probeCount (BootAction.probe :: BootAction.sleepSec _ :: _) ≤ m + 1
        rw [probeCount_cons_probe, probeCount_cons_sleep]
        exact Nat.succ_le_succ (ih _)

theorem bootProbeLoop_all_fail (n : Nat) :
    ∀ probe : Nat -> Int, (∀ i, i < n -> probe i ≠ 0) ->
      probeCount (bootProbeLoop probe n).1 = n
      ∧ (bootProbeLoop probe n).2 = false := by
  induction n with
  | zero => intro probe _; exact ⟨rfl, rfl⟩
  | succ m ih =>
      intro probe hfail
      have h0 : probe 0 ≠ 0 := hfail 0 (Nat.succ_pos m)
      rw [bootProbeLoop_succ, if_neg h0]
      have hrec := ih (fun i => probe (i + 1))
        (fun i hi => hfail (i + 1) (Nat.succ_lt_succ hi))
      constructor
      · show probeCount (BootAction.probe :: BootAction.sleepSec _ :: _) = m + 1
        rw [probeCount_cons_probe, probeCount_cons_sleep, hrec.1]
      · exact hrec.2

theorem bootProbeLoop_first_success (k : Nat) :
    ∀ (probe : Nat -> Int) (n : Nat),
      (∀ i, i < k -> probe i ≠ 0) -> probe k = 0 -> k < n ->
      probeCount (bootProbeLoop probe n).1 = k + 1
      ∧ (bootProbeLoop probe n).2 = true := by
  induction k with
  | zero =>
      intro probe n _ hk hn
      rcases n with _ | m
      · exact absurd hn (Nat.lt_irrefl 0)
      · rw [bootProbeLoop_succ, if_pos hk]
        exact ⟨rfl, rfl⟩
  | succ j ih =>
      intro probe n hfail hk hn
      rcases n with _ | m
      · exact absurd hn (Nat.not_lt_zero _)
      · have h0 : probe 0 ≠ 0 := hfail 0 (Nat.succ_pos j)
        rw [bootProbeLoop_succ, if_neg h0]
        have hrec := ih (fun i => probe (i + 1)) m
          (fun i hi => hfail (i + 1) (Nat.succ_lt_succ hi)) hk
          (Nat.lt_of_succ_lt_succ hn)
        constructor
        · show probeCount (BootAction.probe :: BootAction.sleepSec _ :: _) = j + 1 + 1
          rw [probeCount_cons_probe, probeCount_cons_sleep, hrec.1]
        · exact hrec.2

theorem stepTargetInstall_some_fst (conf : RunConf) (exec : PhaseExec)
    (r : String) (h : conf.target.rpm = some r) :
    (stepTargetInstall conf exec).1 = [Event.installTarget] := by
  simp only [stepTargetInstall, h]
  by_cases hc : exec.installTarget = 0 <;> simp [hc]

theorem stepTargetInstall_fail (conf : RunConf) (exec : PhaseExec)
    (r : String) (h : conf.target.rpm = some r)
    (hf : exec.installTarget ≠ 0) :
    stepTargetInstall conf exec
      = ([Event.installTarget],
         Except.error (RunErr.targetInstallFailed exec.installTarget)) := by
  simp only [stepTargetInstall, h]
  rw [if_neg hf]

theorem runPhases_targetInstall_fail (conf : RunConf) (exec : PhaseExec)
    (r : String) (h : conf.target.rpm = some r)
    (hf : exec.installTarget ≠ 0) :
    runPhases conf exec
      = ([Event.installTarget],
         Except.error (RunErr.targetInstallFailed exec.installTarget)) := by
  unfold runPhases
  rw [stepTargetInstall_fail conf exec r h hf]
  rfl

theorem runPhases_cons_install (conf : RunConf) (exec : PhaseExec)
    (r : String) (h : conf.target.rpm = some r) :
    ∃ t, (runPhases conf exec).1 = Event.installTarget :: t := by
  have hfst := stepTargetInstall_some_fst conf exec r h
  unfold runPhases
  rcases andThenE_fst (stepTargetInstall conf exec)
      (andThenE (stepSteeringInstall conf exec)
        (andThenE (stepSteeringInvoke conf exec)
          (andThenE (stepTargetInvoke conf exec)
            (stepTestInvocation conf exec)))) with h2 | h2
  · exact ⟨(andThenE (stepSteeringInstall conf exec)
        (andThenE (stepSteeringInvoke conf exec)
          (andThenE (stepTargetInvoke conf exec)
            (stepTestInvocation conf exec)))).1,
      by rw [h2, hfst]; rfl⟩
  · exact ⟨[], by rw [h2, hfst]⟩

theorem cliRun_cons_install (conf : RunConf) (exec : PhaseExec)
    (r : String) (h : conf.target.rpm = some r) :
    ∃ t, (cliRun conf exec).1 = Event.installTarget :: t := by
  rcases runPhases_cons_install conf exec r h with ⟨t, ht⟩
  refine ⟨t ++ releaseEvents conf, ?_⟩
  rw [cliRun_fst, ht]
  rfl

theorem releaseEvents_mem (conf : RunConf) (e : Event)
    (h : e ∈ releaseEvents conf) : Event.isRelease e = true := by
  rcases conf with ⟨t, st, ti, rr⟩
  rcases st with _ | s <;> cases rr <;> simp [releaseEvents] at h
  · subst h; rfl
  · rcases h with h | h <;> subst h <;> rfl
  · rcases h with h | h <;> subst h <;> rfl
  · rcases h with h | h | h <;> subst h <;> rfl

/-! ## Claim theorems -/

/-- C1 (counterexample): with a steering machine configured and a
`test_invocation` phase on it whose invoke command exits with code 2,
`CliRun.run` does not return 2 — it raises `RuntimeError` (the claim says
the failure is only recorded and the overall return value equals 2). -/
theorem C1_counterexample :
    (cliRun c1Conf c1Exec).2 = Except.error (RunErr.testInvocationFailed 2)
    ∧ ((cliRun c1Conf c1Exec).2 == Except.ok 2) = false := by
  decide

/-- C1 (amended): a `test_invocation` phase failure aborts the run — the
orchestrator result is the raised `RuntimeError` carrying that exit code,
never the exit code as a return value; the `with` unwind still releases
every configured backend exactly once (and the repository when configured),
and the orchestrator returns 0 exactly when no phase raised. -/
theorem C1_test_invocation_aborts (conf : RunConf) (exec : PhaseExec)
    (c : Int) :
    ((runPhases conf exec).2 = Except.error (RunErr.testInvocationFailed c) →
       (cliRun conf exec).2 = Except.error (RunErr.testInvocationFailed c))
    ∧ ((runPhases conf exec).2 = Except.ok () →
       (cliRun conf exec).2 = Except.ok 0)
    ∧ (cliRun conf exec).1.count Event.releaseTarget = 1
    ∧ (cliRun conf exec).1.count Event.releaseSteering
        = (if conf.steering.isSome then 1 else 0)
    ∧ (cliRun conf exec).1.count Event.releaseRepo
        = (if conf.rpmRepo then 1 else 0) :=
  ⟨cliRun_snd_error conf exec _, cliRun_snd_ok conf exec,
   (cliRun_release_counts conf exec).1,
   (cliRun_release_counts conf exec).2.1,
   (cliRun_release_counts conf exec).2.2⟩

/-- C1 (witness): the amended theorem applied to the concrete failing run:
the result is the error carrying exit code 2, and both backends are
released exactly once. -/
theorem C1_witness :
    (cliRun c1Conf c1Exec).2 = Except.error (RunErr.testInvocationFailed 2)
    ∧ (cliRun c1Conf c1Exec).1.count Event.releaseSteering = 1
    ∧ (cliRun c1Conf c1Exec).1.count Event.releaseTarget = 1 := by
  have h := C1_test_invocation_aborts c1Conf c1Exec 2
  refine ⟨h.1 (by decide), ?_, h.2.2.1⟩
  have h2 := h.2.2.2.1
  simpa [c1Conf] using h2

/-- C2: `VirtEC2.__exit__` tears down strictly in the order terminate →
wait-until-terminated (blocking) → delete security group → delete keypair:
with no fault every call is issued in exactly that order, and under any
fault assignment the issued calls are a prefix of that order (no later call
is issued before every earlier one has completed). -/
theorem C2_ec2_teardown_order :
    virtEC2_exit
        { terminateFails := false, waitFails := false,
          sgDeleteFails := false, keypairDeleteFails := false }
      = (ec2TeardownOrder, false)
    ∧ ∀ f : Ec2TeardownFaults,
        (virtEC2_exit f).1
          = ec2TeardownOrder.take (virtEC2_exit f).1.length := by
  constructor
  · rfl
  · intro f
    rcases f with ⟨a, b, c, d⟩
    cases a <;> cases b <;> cases c <;> cases d <;> rfl

/-- C3: the boot readiness loop of `VirtEC2._create_ec2_instance` probes at
most `n` times; if every probe fails it raises after exactly `n` probes; it
stops with success at the first probe returning 0 (so first success at
index `k` means exactly `k+1` probes); the source instantiates the budget
at 20 attempts with a fixed 20-second sleep between attempts, and a stub
failing twice then succeeding under a budget of 3 is probed exactly 3
times. -/
theorem C3_readiness_probe (probe : Nat → Int) (n k : Nat) :
    probeCount (bootProbeLoop probe n).1 ≤ n
    ∧ ((∀ i, i < n → probe i ≠ 0) →
        probeCount (bootProbeLoop probe n).1 = n
        ∧ (bootProbeLoop probe n).2 = false)
    ∧ ((∀ i, i < k → probe i ≠ 0) → probe k = 0 → k < n →
        probeCount (bootProbeLoop probe n).1 = k + 1
        ∧ (bootProbeLoop probe n).2 = true)
    ∧ ec2WaitReady probe = bootProbeLoop probe 20
    ∧ bootProbeLoop (fun i => if i < 2 then 1 else 0) 3
        = ([BootAction.probe, BootAction.sleepSec 20, BootAction.probe,
            BootAction.sleepSec 20, BootAction.probe], true) :=
  ⟨bootProbeLoop_count_le n probe,
   bootProbeLoop_all_fail n probe,
   fun h1 h2 h3 => bootProbeLoop_first_success k probe n h1 h2 h3,
   rfl, by decide⟩

/-- C3 (witness): an always-failing probe under the hard-coded budget of 20
is probed exactly 20 times and raises; the fail-fail-succeed stub under a
budget of 3 is probed exactly 3 times and succeeds. -/
theorem C3_witness :
    probeCount (ec2WaitReady (fun _ => 1)).1 = 20
    ∧ (ec2WaitReady (fun _ => 1)).2 = false
    ∧ probeCount (bootProbeLoop (fun i => if i < 2 then 1 else 0) 3).1 = 3
    ∧ (bootProbeLoop (fun i => if i < 2 then 1 else 0) 3).2 = true := by
  have h1 := (C3_readiness_probe (fun _ => (1 : Int)) 20 0).2.1
    (fun i _ => by decide)
  have h2 := (C3_readiness_probe (fun i => if i < 2 then (1 : Int) else 0) 3 2).2.2.1
    (fun i hi => by simp [hi]) (by decide) (by decide)
  exact ⟨h1.1, h1.2, h2.1, h2.2⟩

/-- C5 (counterexample): when the security-group delete raises during
`VirtEC2.__exit__`, the keypair delete is never issued and the exception
propagates — refuting the claim that every remaining teardown sub-step
still executes and the failure is only logged. -/
theorem C5_counterexample :
    virtEC2_exit c5Faults
      = ([Ec2TeardownEvent.terminateInstance,
          Ec2TeardownEvent.waitUntilTerminated,
          Ec2TeardownEvent.deleteSecurityGroup], true)
    ∧ (virtEC2_exit c5Faults).1.count Ec2TeardownEvent.deleteKeypair = 0 := by
  decide

/-- C5 (amended): `VirtEC2.__exit__` has no exception handling: if the
security-group delete raises (the instance steps having succeeded), the
remaining sub-step (keypair delete) is skipped and the exception propagates
out of release. -/
theorem C5_release_not_protected (f : Ec2TeardownFaults)
    (h1 : f.terminateFails = false) (h2 : f.waitFails = false)
    (h3 : f.sgDeleteFails = true) :
    (virtEC2_exit f).1
      = [Ec2TeardownEvent.terminateInstance,
         Ec2TeardownEvent.waitUntilTerminated,
         Ec2TeardownEvent.deleteSecurityGroup]
    ∧ Ec2TeardownEvent.deleteKeypair ∉ (virtEC2_exit f).1
    ∧ (virtEC2_exit f).2 = true := by
  unfold virtEC2_exit ec2Step
  rw [h1, h2, h3]
  simp

/-- C5 (witness): the amended theorem applied to the concrete fault
assignment where only the security-group delete raises. -/
theorem C5_witness :
    c5Faults.terminateFails = false ∧ c5Faults.waitFails = false
    ∧ c5Faults.sgDeleteFails = true
    ∧ ((virtEC2_exit c5Faults).1
        = [Ec2TeardownEvent.terminateInstance,
           Ec2TeardownEvent.waitUntilTerminated,
           Ec2TeardownEvent.deleteSecurityGroup]
       ∧ Ec2TeardownEvent.deleteKeypair ∉ (virtEC2_exit c5Faults).1
       ∧ (virtEC2_exit c5Faults).2 = true) :=
  ⟨rfl, rfl, rfl, C5_release_not_protected c5Faults rfl rfl rfl⟩

/-- C4: with both `target.rpm` and `target.invoke` configured, the install
command is issued strictly before any invoke command (the trace starts
with the install, so every invoke occurrence is later); and when the
install exits non-zero, the run aborts immediately — the trace is exactly
the install followed by the full unwind, the invoke never runs, and the
result is the install error. -/
theorem C4_target_install_before_invoke (conf : RunConf) (exec : PhaseExec)
    (r : String) (iv : List String)
    (hr : conf.target.rpm = some r) (hi : conf.target.invoke = some iv) :
    (∃ t, (cliRun conf exec).1 = Event.installTarget :: t)
    ∧ (Event.invokeTarget ∈ (cliRun conf exec).1 →
        Event.installTarget ∈
          (cliRun conf exec).1.takeWhile
            (fun e => !(e == Event.invokeTarget)))
    ∧ (exec.installTarget ≠ 0 →
        (cliRun conf exec).1 = Event.installTarget :: releaseEvents conf
        ∧ Event.invokeTarget ∉ (cliRun conf exec).1
        ∧ (cliRun conf exec).2
            = Except.error (RunErr.targetInstallFailed exec.installTarget)) := by
  obtain ⟨t, ht⟩ := cliRun_cons_install conf exec r hr
  refine ⟨⟨t, ht⟩, ?_, ?_⟩
  · intro _
    rw [ht, List.takeWhile_cons]
    simp
  · intro hf
    have hrp := runPhases_targetInstall_fail conf exec r hr hf
    have hfst : (cliRun conf exec).1
        = Event.installTarget :: releaseEvents conf := by
      rw [cliRun_fst, hrp]
      rfl
    refine ⟨hfst, ?_, ?_⟩
    · rw [hfst]
      intro hmem
      rcases List.mem_cons.mp hmem with hcase | hcase
      · exact Event.noConfusion hcase
      · exact absurd (releaseEvents_mem conf _ hcase) (by decide)
    · refine cliRun_snd_error conf exec _ ?_
      rw [hrp]

/-- C4 (witness): the theorem applied to the concrete run where the install
exits with code 1: the invoke is never issued and the unwind is complete. -/
theorem C4_witness :
    c4Conf.target.rpm = some "pkg-a"
    ∧ c4Conf.target.invoke = some ["echo", "hi"]
    ∧ c4Exec.installTarget ≠ 0
    ∧ ((cliRun c4Conf c4Exec).1 = Event.installTarget :: releaseEvents c4Conf
       ∧ Event.invokeTarget ∉ (cliRun c4Conf c4Exec).1
       ∧ (cliRun c4Conf c4Exec).2
           = Except.error (RunErr.targetInstallFailed c4Exec.installTarget)) :=
  ⟨rfl, rfl, by decide,
   (C4_target_install_before_invoke c4Conf c4Exec "pkg-a" ["echo", "hi"]
      rfl rfl).2.2 (by decide)⟩

/-- C6: a configuration with a target section but no steering section does
not complete the run — the unconditional `conf.options["steering"]` lookup
at `cli.py:378` raises `KeyError` right after the target install, although
the nested unwind still runs. -/
theorem C6_missing_steering_keyerror :
    cliRun c6Conf c6Exec
      = ([Event.installTarget, Event.releaseTarget],
         Except.error (RunErr.keyError "steering")) := by
  decide

/-- C7: every backend `run` returns the remote command exit status as
an integer and never raises, whatever that status is: each variant `run`
is `Except.ok` of the environment exit status for the exact command line
it assembles, and never an error. -/
theorem C7_run_returns_exit_status (env : List String → Int)
    (user host publicIp privkeyFile command execRef : String)
    (port sshPort : Nat) (options : List (String × String))
    (privileged : Bool) (args : List String) :
    sshCommand_run env user host port privkeyFile command options
      = Except.ok (env (sshCommand_cmd user host port privkeyFile command options))
    ∧ virtDocker_run env privileged execRef args
      = Except.ok (env (virtDocker_runCmd privileged execRef args))
    ∧ virtEC2_run env publicIp privkeyFile args
      = Except.ok (env (sshCommand_cmd "admin" publicIp 22 privkeyFile
          (String.intercalate " " args)
          [("StrictHostKeyChecking", "no"),
           ("UserKnownHostsFile", "/dev/null")]))
    ∧ virtQemu_run env sshPort privkeyFile args
      = Except.ok (env (sshCommand_cmd "admin" "127.0.0.1" sshPort privkeyFile
          (String.intercalate " " args)
          [("StrictHostKeyChecking", "no"),
           ("UserKnownHostsFile", "/dev/null")]))
    ∧ (sshCommand_run env user host port privkeyFile command options).isOk
        = true
    ∧ (virtDocker_run env privileged execRef args).isOk = true
    ∧ (virtEC2_run env publicIp privkeyFile args).isOk = true
    ∧ (virtQemu_run env sshPort privkeyFile args).isOk = true :=
  ⟨rfl, rfl, rfl, rfl, rfl, rfl, rfl, rfl⟩

/-- C8: of the three whitelisted virtualization types, `docker` and `qemu`
validate together with their sub-objects and any other type value is
rejected with an invalid-value error — but `ec2` does not validate: because
the `ec2` branch of the loader is `pass`, the final `conf[type]` presence
check raises a missing-key error even though the `ec2` key is present. -/
theorem C8_loader_virtualization_types :
    load_virtualization "/target/virtualization"
        [("type", JValue.str "docker"),
         ("docker", JValue.obj [("image", JValue.str "img")])]
      = Except.ok
          [("type", JValue.str "docker"),
           ("docker", JValue.obj [("image", JValue.str "img")])]
    ∧ load_virtualization "/target/virtualization"
        [("type", JValue.str "qemu"),
         ("qemu", JValue.obj [("image", JValue.str "img.qcow2"),
                              ("ssh_port", JValue.num 2222)])]
      = Except.ok
          [("type", JValue.str "qemu"),
           ("qemu", JValue.obj [("image", JValue.str "img.qcow2"),
                                ("ssh_port", JValue.num 2222)])]
    ∧ load_virtualization "/target/virtualization"
        [("type", JValue.str "lxc")]
      = Except.error (ConfErr.invalidValue "/target/virtualization" "type"
          (JValue.str "lxc"))
    ∧ load_virtualization "/target/virtualization"
        [("type", JValue.str "ec2"), ("ec2", JValue.obj [])]
      = Except.error (ConfErr.missingKey "/target/virtualization" "ec2") :=
  ⟨rfl, rfl, rfl, rfl⟩

/-- C9 (counterexample): `SshKeys.__del__` leaves both generated key files
on disk — refuting the claim that the private and public key files are
unlinked when the object lifetime ends. -/
theorem C9_counterexample :
    sshKeys_del (sshKeys_files "/cache")
      = ["/cache/id_rsa", "/cache/id_rsa.pub"]
    ∧ "/cache/id_rsa" ∈ sshKeys_del (sshKeys_files "/cache")
    ∧ "/cache/id_rsa.pub" ∈ sshKeys_del (sshKeys_files "/cache") := by
  refine ⟨rfl, ?_, ?_⟩ <;> simp [sshKeys_del, sshKeys_files]

/-- C9 (amended): `SshKeys.__del__` is a no-op — its unlink calls are
commented out — so the key files generated in the cache directory persist
unchanged when the keypair object lifetime ends. -/
theorem C9_del_is_noop (cacheDir : String) (files : List String) :
    sshKeys_del files = files
    ∧ sshKeys_del (sshKeys_files cacheDir) = sshKeys_files cacheDir :=
  ⟨rfl, rfl⟩

/-- C10: `VirtDocker._container_stop` is idempotent: one call leaves the
container reference `None`; a call on a `None` reference issues no docker
command and leaves the state unchanged, so stopping twice equals stopping
once; a live reference issues exactly the one `docker container stop`. -/
theorem C10_container_stop_idempotent (execRef : Option String)
    (ref : String) :
    (container_stop execRef).1 = none
    ∧ container_stop (container_stop execRef).1 = (none, [])
    ∧ container_stop none = (none, [])
    ∧ (container_stop (some ref)).2 = [["docker", "container", "stop", ref]] := by
  rcases execRef with _ | r <;> exact ⟨rfl, rfl, rfl, rfl⟩
